import Mathlib

/-!
Verification of the few-shot regional-bias classification script
(`few_shot_150_examples/deepseek_r1_distill_7b.py`).

Text is embedded as `List Char`.  Python's regex-based cleaning, the
response-parsing heuristics, the prompt builder and the sequential batch
driver are translated into executable Lean definitions below.  External
effects (the HuggingFace model, the tokenizer, file I/O and logging) are
abstracted as explicit functional parameters: the tokenizer's length
check is a function `tokCount`, and one generate-and-decode call is a
function `decode` returning either the decoded text or the message of a
raised exception (`Except`).
-/

/-- Python `\s` (whitespace) restricted to the ASCII whitespace characters
space, tab, newline, carriage return, vertical tab and form feed. -/
def isSpaceB (c : Char) : Bool :=
  c.toNat == 32 || c.toNat == 9 || c.toNat == 10 || c.toNat == 13 ||
  c.toNat == 11 || c.toNat == 12

/-- Regex class `A-Z`. -/
def isUpperB (c : Char) : Bool := 65 ≤ c.toNat && c.toNat ≤ 90

/-- Regex class `a-z`. -/
def isLowerB (c : Char) : Bool := 97 ≤ c.toNat && c.toNat ≤ 122

/-- Regex class `0-9`. -/
def isDigitB (c : Char) : Bool := 48 ≤ c.toNat && c.toNat ≤ 57

/-- The character class kept by `re.sub(r"[^a-zA-Z0-9\s]", "", ...)`. -/
def allowedB (c : Char) : Bool := isUpperB c || isLowerB c || isDigitB c || isSpaceB c

/-- ASCII lower-casing of one character, as in Python `str.lower` on ASCII. -/
def toLowerC (c : Char) : Char :=
  if isUpperB c then Char.ofNat (c.toNat + 32) else c

/-- `isPrefixB p s` is Python `s.startswith(p)` on character lists. -/
def isPrefixB : List Char → List Char → Bool
  | [], _ => true
  | _ :: _, [] => false
  | a :: p, b :: s => a == b && isPrefixB p s

/-- `containsB hay pat` is Python `pat in hay` (substring containment). -/
def containsB : List Char → List Char → Bool
  | [], pat => pat.isEmpty
  | h :: t, pat => isPrefixB pat (h :: t) || containsB t pat

/-- Python slice `s[-n:]`. -/
def lastN (n : Nat) (l : List Char) : List Char := l.drop (l.length - n)

/-- One pass of `re.sub(r"http\S+", "", s)`: scan left to right; at each
position, if the text starts with the literal `http` followed by at least
one non-whitespace character, delete `http` together with the maximal run
of following non-whitespace characters and resume scanning after it,
otherwise copy the character.  `fuel` only forces structural recursion;
it is initialised with the length of the list, which is always enough
because every step consumes at least one character. -/
def subHttpF : Nat → List Char → List Char
  | 0, _ => []
  | fuel + 1, l =>
    match l with
    | [] => []
    | c :: cs =>
      if isPrefixB (("http").data) (c :: cs) &&
         (match cs.drop 3 with
          | [] => false
          | d :: _ => !isSpaceB d) then
        subHttpF fuel ((cs.drop 3).dropWhile (fun d => !isSpaceB d))
      else c :: subHttpF fuel cs

/-- `re.sub(r"http\S+", "", s)` (line 91 of the script). -/
def subHttp (l : List Char) : List Char := subHttpF l.length l

/-- `re.sub(r"[^a-zA-Z0-9\s]", "", s)` (line 92 of the script). -/
def filterAllowed (l : List Char) : List Char := l.filter allowedB

/-- `re.sub(r"\s+", " ", s)` (line 93 of the script): every maximal run of
whitespace characters is replaced by a single space. -/
def squeeze : List Char → List Char
  | [] => []
  | [c] => [if isSpaceB c then ' ' else c]
  | a :: b :: t =>
    if isSpaceB a && isSpaceB b then squeeze (b :: t)
    else (if isSpaceB a then ' ' else a) :: squeeze (b :: t)

/-- Python `str.strip()` from the left. -/
def stripL (l : List Char) : List Char := l.dropWhile isSpaceB

/-- Python `str.strip()` from the right. -/
def stripEnd (l : List Char) : List Char := ((l.reverse).dropWhile isSpaceB).reverse

/-- Python `str.strip()` (both ends). -/
def stripBoth (l : List Char) : List Char := stripEnd (stripL l)

/-- Decimal digits of a natural number (fuel-structural). -/
def natStrF : Nat → Nat → List Char
  | 0, _ => []
  | fuel + 1, n =>
    if n < 10 then [Char.ofNat (48 + n)]
    else natStrF fuel (n / 10) ++ [Char.ofNat (48 + n % 10)]

/-- Python `str` of a natural number. -/
def natStr (n : Nat) : List Char := natStrF (n + 1) n

/-- A Python value that may be passed to `clean_text`: the script applies
it to a pandas column, so strings, numbers and missing values (`NaN`)
can all reach it.  `str(...)` is total on all of them. -/
inductive PyVal where
  | pyStr : List Char → PyVal
  | pyInt : Int → PyVal
  | pyNaN : PyVal
  | pyNone : PyVal
deriving DecidableEq

/-- Python `str(...)` on the modelled values. -/
def pyStrOf : PyVal → List Char
  | .pyStr s => s
  | .pyInt (.ofNat n) => natStr n
  | .pyInt (.negSucc n) => '-' :: natStr (n + 1)
  | .pyNaN => ("nan").data
  | .pyNone => ("None").data

/-- The four cleaning steps of `clean_text` (lines 90-93) applied to an
already-stringified value: lower-case, remove URLs, remove special
characters, collapse whitespace and strip. -/
def cleanStr (s : List Char) : List Char :=
  stripBoth (squeeze (filterAllowed (subHttp (s.map toLowerC))))

/-- `clean_text` (lines 88-94 of the script): `str(text)` followed by the
cleaning pipeline.  Total on every modelled Python value. -/
def clean_text (v : PyVal) : List Char := cleanStr (pyStrOf v)

/-! ## Data model -/

/-- A raw CSV row as read by `load_datasets`: the `Comment` column and the
non-negative integer `Level-1` column. -/
structure RawRow where
  comment : List Char
  level1 : Nat
deriving DecidableEq

/-- A row after the loader attached `Cleaned_Comment` (lines 135-136). -/
structure DataRow where
  comment : List Char
  cleaned : List Char
  level1 : Nat
deriving DecidableEq

/-- The overlap-removal step of `load_datasets` (lines 128-130): keep a
test row exactly when its stripped comment is not in the set of stripped
example comments. -/
def overlapFiltered (examples test : List RawRow) : List RawRow :=
  test.filter (fun t =>
    !((examples.map (fun e => stripBoth e.comment)).contains (stripBoth t.comment)))

/-- The optional truncation of the test set (lines 139-141):
`test_df.head(test_limit)` only when a positive limit is given. -/
def applyTestLimit (test_limit : Option Nat) (rows : List RawRow) : List RawRow :=
  match test_limit with
  | none => rows
  | some n => if 0 < n then rows.take n else rows

/-- The test-set part of `load_datasets` that decides which rows survive:
overlap removal followed by the optional row cap.  (Attaching the cleaned
text keeps every row and is modelled by `loadClean`.) -/
def load_datasets_test (examples test : List RawRow) (test_limit : Option Nat) :
    List RawRow :=
  applyTestLimit test_limit (overlapFiltered examples test)

/-- Attaching `Cleaned_Comment` to a surviving row (lines 135-136). -/
def loadClean (r : RawRow) : DataRow :=
  ⟨r.comment, clean_text (.pyStr r.comment), r.level1⟩

/-! ## Prompt Builder -/

/-- The shared instruction block of both prompt templates
(lines 152-156 and 360-364 of the script, character for character). -/
def promptInstructions : List Char :=
  ("You are an expert in identifying regional biases in comments about Indian states and regions. Task: Classify if the comment contains regional bias related to Indian states or regions.\n\nInstructions:\n- Regional Bias (1): Comments that contain stereotypes, prejudices, or biases about specific Indian states or regions.\n- Non-Regional Bias (0): Comments that don\x27t contain regional stereotypes or biases about Indian states.\n\n").data

/-- The digit printed for a binary classification label. -/
def digitOf (n : Nat) : List Char := if n == 1 then ("1").data else ("0").data

/-- One example pair of the few-shot prompt (lines 159-164): the cleaned
comment and its `Level-1` value binarised with threshold `>= 1`. -/
def exampleLine (r : DataRow) : List Char :=
  ("Comment: \"").data ++ r.cleaned ++ ("\"\nClassification: ").data ++
  digitOf (if 1 ≤ r.level1 then 1 else 0) ++ ("\n\n").data

/-- The trailing target-comment block of the full prompt (line 166). -/
def promptTarget (comment : List Char) : List Char :=
  ("Now classify this comment:\n\"").data ++ comment ++ ("\"\nClassification:").data

/-- `create_few_shot_prompt` (lines 145-168).  The seeded
`DataFrame.sample(frac=1, random_state=seed)` shuffle lives in the
pandas/numpy library, so it is abstracted as a function `shuffle` from a
seed and the example list to a reordered example list; theorems that need
it assume it produces a permutation, which is what `sample(frac=1)` does. -/
def create_few_shot_prompt (shuffle : Nat → List DataRow → List DataRow)
    (examples_df : List DataRow) (comment : List Char) (random_seed : Nat) :
    List Char :=
  promptInstructions ++ ("Examples:\n").data ++
  ((shuffle random_seed examples_df).map exampleLine).flatten ++
  promptTarget comment

/-- The shorter fallback template the batch driver substitutes when the
full prompt exceeds the token budget (lines 360-366). -/
def simplified_prompt (comment : List Char) : List Char :=
  promptInstructions ++
  ("Examples are provided separately. Based on these instructions:\n\n").data ++
  ("Classify this comment:\n\"").data ++ comment ++ ("\"\nClassification:").data

/-! ## Response Parser -/

/-- The response-parsing heuristic of `predict_with_model`
(lines 301-323): ordered first-match rules over the generated
continuation and the full decoded output. -/
def parse_response (generated_text full_output : List Char) : Nat :=
  if isPrefixB (("1").data) generated_text || generated_text == ("1").data then 1
  else if isPrefixB (("0").data) generated_text || generated_text == ("0").data then 0
  else
    let last_part := (lastN 50 full_output).map toLowerC
    if containsB last_part (("1").data) && !containsB last_part (("0").data) then 1
    else if containsB last_part (("0").data) && !containsB last_part (("1").data) then 0
    else if containsB last_part (("regional bias").data) || containsB last_part (("bias").data) then 1
    else if containsB last_part (("non-regional").data) || containsB last_part (("no bias").data) then 0
    else 0

/-- The parser rules exactly as the specification enumerates them, in
order, each paired with the label it decides; the default of rule (5) is
the empty tail of the list. -/
def ruleList (generated_text full_output : List Char) : List (Bool × Nat) :=
  let last_part := (lastN 50 full_output).map toLowerC
  [ (isPrefixB (("1").data) generated_text || generated_text == ("1").data, 1),
    (isPrefixB (("0").data) generated_text || generated_text == ("0").data, 0),
    (containsB last_part (("1").data) && !containsB last_part (("0").data), 1),
    (containsB last_part (("0").data) && !containsB last_part (("1").data), 0),
    (containsB last_part (("regional bias").data) || containsB last_part (("bias").data), 1),
    (containsB last_part (("non-regional").data) || containsB last_part (("no bias").data), 0) ]

/-- First-match evaluation of an ordered rule sequence, defaulting to 0. -/
def firstMatch : List (Bool × Nat) → Nat
  | [] => 0
  | (b, v) :: rest => if b then v else firstMatch rest

/-! ## Model Runner -/

/-- `predict_with_model` (lines 255-328).  `decode` stands for one
tokenize + `model.generate` + `tokenizer.decode` round trip: it returns
the full decoded output, or the message of the exception that the
`except` block of lines 325-328 would catch.  On success the echoed
prompt is stripped from the front (falling back to the last 50
characters), and the parser maps the continuation to a label. -/
def predict_with_model (decode : List Char → Except (List Char) (List Char))
    (prompt : List Char) : Nat × List Char :=
  match decode prompt with
  | .error e => (0, ("ERROR: ").data ++ e)
  | .ok full_output =>
    let generated_text :=
      if isPrefixB prompt full_output then stripBoth (full_output.drop prompt.length)
      else stripBoth (lastN 50 full_output)
    (parse_response generated_text full_output, full_output)

/-! ## Batch Driver -/

/-- One record of a checkpoint CSV (lines 387-393). -/
structure CkRow where
  comment : List Char
  cleaned : List Char
  true_label : Nat
  predicted : Nat
  model_output : List Char
deriving DecidableEq

/-- The column-wise construction of a checkpoint `DataFrame`
(lines 387-393): rows are zipped from the first `i+1` test rows, the
predictions and the raw outputs, the true label binarised at `>= 1`
and the raw output truncated to 500 characters. -/
def ckRows : List DataRow → List Nat → List (List Char) → List CkRow
  | r :: rs, p :: ps, o :: os =>
    ⟨r.comment, r.cleaned, if 1 ≤ r.level1 then 1 else 0, p, o.take 500⟩ :: ckRows rs ps os
  | _, _, _ => []

/-- The mutable state of the `batch_predict` loop: the two result lists
and the trace of checkpoints written so far (each as the record count
`i+1` together with the rows of the CSV written at that point). -/
structure BatchState where
  preds : List Nat
  raws : List (List Char)
  ckpts : List (Nat × List CkRow)
deriving DecidableEq

/-- The per-record body of `batch_predict` (lines 345-401) for one test
comment: build the full few-shot prompt, count its tokens (`tokCount`
abstracts `tokenizer(prompt, truncation=False)` and may raise), switch
to the simplified template when the count exceeds `max_length`, and run
`predict_with_model`.  An exception from the outer `try` is scored as
prediction 0 with the error text as raw output (lines 398-401). -/
def processOne (shuffle : Nat → List DataRow → List DataRow)
    (tokCount : List Char → Except (List Char) Nat)
    (decode : List Char → Except (List Char) (List Char))
    (examples_df : List DataRow) (max_length random_seed : Nat)
    (comment : List Char) : Nat × List Char :=
  match tokCount (create_few_shot_prompt shuffle examples_df comment random_seed) with
  | .error e => (0, ("ERROR: ").data ++ e)
  | .ok n =>
    predict_with_model decode
      (if max_length < n then simplified_prompt comment
       else create_few_shot_prompt shuffle examples_df comment random_seed)

/-- The first exception raised while processing one record, if any: either
the tokenizer length check or the generate-and-decode call fails.  `none`
means the record takes the fully successful path. -/
def recError? (shuffle : Nat → List DataRow → List DataRow)
    (tokCount : List Char → Except (List Char) Nat)
    (decode : List Char → Except (List Char) (List Char))
    (examples_df : List DataRow) (max_length random_seed : Nat)
    (comment : List Char) : Option (List Char) :=
  match tokCount (create_few_shot_prompt shuffle examples_df comment random_seed) with
  | .error e => some e
  | .ok n =>
    match decode (if max_length < n then simplified_prompt comment
                  else create_few_shot_prompt shuffle examples_df comment random_seed) with
    | .error e => some e
    | .ok _ => none

/-- The loop of `batch_predict` (lines 345-407), indexed by the position
`i` of the current record.  Results are appended per record; a checkpoint
is recorded when `(i + 1) % checkpoint_interval == 0` or `i` is the last
index (line 384), holding the first `i+1` rows, predictions and
truncated outputs (lines 387-393).  Checkpoint persistence itself is
file I/O and is modelled as effect-free. -/
def batchGo (shuffle : Nat → List DataRow → List DataRow)
    (tokCount : List Char → Except (List Char) Nat)
    (decode : List Char → Except (List Char) (List Char))
    (examples_df : List DataRow) (max_length random_seed : Nat)
    (test_df : List DataRow) (checkpoint_interval : Nat) :
    Nat → List DataRow → BatchState → BatchState
  | _, [], st => st
  | i, r :: rest, st =>
    batchGo shuffle tokCount decode examples_df max_length random_seed
      test_df checkpoint_interval (i + 1) rest
      ⟨st.preds ++ [(processOne shuffle tokCount decode examples_df max_length random_seed r.cleaned).1],
       st.raws ++ [(processOne shuffle tokCount decode examples_df max_length random_seed r.cleaned).2],
       if (i + 1) % checkpoint_interval == 0 || i == test_df.length - 1 then
         st.ckpts ++
           [(i + 1,
             ckRows (test_df.take (i + 1))
               ((st.preds ++ [(processOne shuffle tokCount decode examples_df max_length random_seed r.cleaned).1]).take (i + 1))
               ((st.raws ++ [(processOne shuffle tokCount decode examples_df max_length random_seed r.cleaned).2]).take (i + 1)))]
       else st.ckpts⟩

/-- `batch_predict` (lines 330-408): run the loop over the whole test
set starting from empty result lists. -/
def batch_predict (shuffle : Nat → List DataRow → List DataRow)
    (tokCount : List Char → Except (List Char) Nat)
    (decode : List Char → Except (List Char) (List Char))
    (examples_df : List DataRow) (max_length random_seed : Nat)
    (test_df : List DataRow) (checkpoint_interval : Nat) : BatchState :=
  batchGo shuffle tokCount decode examples_df max_length random_seed
    test_df checkpoint_interval 0 test_df ⟨[], [], []⟩

/-- The prediction `batch_predict` stores for one test row. -/
def fpred (shuffle : Nat → List DataRow → List DataRow)
    (tokCount : List Char → Except (List Char) Nat)
    (decode : List Char → Except (List Char) (List Char))
    (examples_df : List DataRow) (max_length random_seed : Nat) (r : DataRow) : Nat :=
  (processOne shuffle tokCount decode examples_df max_length random_seed r.cleaned).1

/-- The raw output `batch_predict` stores for one test row. -/
def fraw (shuffle : Nat → List DataRow → List DataRow)
    (tokCount : List Char → Except (List Char) Nat)
    (decode : List Char → Except (List Char) (List Char))
    (examples_df : List DataRow) (max_length random_seed : Nat) (r : DataRow) : List Char :=
  (processOne shuffle tokCount decode examples_df max_length random_seed r.cleaned).2

/-- The threshold-`>= 1` binarisation of a `Level-1` value, as the
specification states it. -/
def binSpec (x : Nat) : Nat := if 1 ≤ x then 1 else 0

/-- The checkpoint row the specification predicts for one test row. -/
def expRow (shuffle : Nat → List DataRow → List DataRow)
    (tokCount : List Char → Except (List Char) Nat)
    (decode : List Char → Except (List Char) (List Char))
    (examples_df : List DataRow) (max_length random_seed : Nat) (r : DataRow) : CkRow :=
  ⟨r.comment, r.cleaned, binSpec r.level1,
   fpred shuffle tokCount decode examples_df max_length random_seed r,
   (fraw shuffle tokCount decode examples_df max_length random_seed r).take 500⟩

/-- The record counts after which the specification says a checkpoint is
written: the multiples of the interval in `1..N`, and `N` itself. -/
def expCounts (checkpoint_interval n : Nat) : List Nat :=
  (List.range' 1 n).filter (fun m => m % checkpoint_interval == 0 || m == n)

/-- The full checkpoint trace the specification predicts. -/
def expCkpts (shuffle : Nat → List DataRow → List DataRow)
    (tokCount : List Char → Except (List Char) Nat)
    (decode : List Char → Except (List Char) (List Char))
    (examples_df : List DataRow) (max_length random_seed : Nat)
    (test_df : List DataRow) (checkpoint_interval : Nat) : List (Nat × List CkRow) :=
  (expCounts checkpoint_interval test_df.length).map
    (fun m => (m, (test_df.take m).map
      (expRow shuffle tokCount decode examples_df max_length random_seed)))

/-- The ground-truth labels computed by `save_results` (lines 410-413). -/
def save_results_true_labels (test_df : List DataRow) : List Nat :=
  test_df.map (fun r => if 1 ≤ r.level1 then 1 else 0)

/-! ## Predicates describing cleaned text -/

/-- A character allowed in `clean_text` output: ASCII lower-case letter,
ASCII digit, or a single space. -/
def goodChar (c : Char) : Bool := isLowerB c || isDigitB c || c == ' '

/-- No two adjacent whitespace characters. -/
def noTwoSpaces : List Char → Bool
  | a :: b :: t => !(isSpaceB a && isSpaceB b) && noTwoSpaces (b :: t)
  | _ => true

/-- The first character, if any, is not whitespace. -/
def headNotSpace : List Char → Bool
  | [] => true
  | c :: _ => !isSpaceB c

/-- The normal form guaranteed for `clean_text` output: only lower-case
letters, digits and spaces; no adjacent spaces; no leading and no
trailing whitespace. -/
def cleanedOK (s : List Char) : Bool :=
  s.all goodChar && noTwoSpaces s && headNotSpace s && headNotSpace s.reverse

/-! ## Concrete instances used to exercise the theorems -/

/-- The identity "shuffle": a permutation for every seed. -/
def shuffle0 : Nat → List DataRow → List DataRow := fun _ l => l

/-- A seed-dependent shuffle that reverses on odd seeds. -/
def shuffleRev : Nat → List DataRow → List DataRow :=
  fun s l => if s % 2 == 0 then l else l.reverse

/-- A tokenizer stub reporting a huge token count. -/
def tokBig : List Char → Except (List Char) Nat := fun _ => .ok 9999

/-- A tokenizer stub reporting a tiny token count. -/
def tokSmall : List Char → Except (List Char) Nat := fun _ => .ok 1

/-- A tokenizer stub that raises. -/
def tokFail : List Char → Except (List Char) Nat := fun _ => .error (("tok boom").data)

/-- A decoding stub that echoes the prompt and appends `1`. -/
def decode1 : List Char → Except (List Char) (List Char) := fun p => .ok (p ++ ("1").data)

/-- A decoding stub that raises. -/
def decodeFail : List Char → Except (List Char) (List Char) :=
  fun _ => .error (("gpu oom").data)

/-- A tiny example set. -/
def examples0 : List DataRow :=
  [⟨("Good state").data, ("good state").data, 0⟩,
   ⟨("Bad stereotype").data, ("bad stereotype").data, 2⟩]

/-- A tiny test set. -/
def recs0 : List DataRow :=
  [⟨("A").data, ("a").data, 1⟩, ⟨("B").data, ("b").data, 0⟩, ⟨("C").data, ("c").data, 3⟩]

/-! ## Claim C1: the parser is first-match evaluation of the ordered rules -/

/-- C1: for every (continuation, full output) pair the Response Parser
returns exactly the label decided by the first matching rule of the
ordered sequence (1) continuation starts with or equals "1"; (2) starts
with or equals "0"; (3) lowercased last 50 characters of the full output
contain "1" and not "0" (label 1) or "0" and not "1" (label 0);
(4) contain "regional bias" or "bias" (label 1) or "non-regional" or
"no bias" (label 0); (5) default label 0. -/
theorem parse_response_first_match (generated_text full_output : List Char) :
    parse_response generated_text full_output =
      firstMatch (ruleList generated_text full_output) := rfl

example : parse_response (("1 is regional").data) (("whatever").data) = 1 := by decide
example : parse_response [] (("bla bla 0 because").data) = 0 := by decide
example : parse_response [] (("clearly some bias here").data) = 1 := by decide
example : parse_response [] (("no bias at all").data) = 1 := by decide
example : parse_response [] (("non-regional").data) = 0 := by decide
example : parse_response [] (("hmm").data) = 0 := by decide

/-! ## Character-level lemmas -/

theorem toNat_charOfNat (n : Nat) (h : n < 55296) : (Char.ofNat n).toNat = n := by
  have hv : Nat.isValidChar n := Or.inl h
  unfold Char.ofNat
  rw [dif_pos hv]
  rfl

theorem toLowerC_toNat_of_upper {c : Char} (h : isUpperB c = true) :
    (toLowerC c).toNat = c.toNat + 32 := by
  have h2 : 65 ≤ c.toNat ∧ c.toNat ≤ 90 := by
    simpa [isUpperB, Bool.and_eq_true, decide_eq_true_eq] using h
  unfold toLowerC
  rw [if_pos h]
  exact toNat_charOfNat _ (by omega)

theorem toLowerC_eq_self {c : Char} (h : isUpperB c = false) : toLowerC c = c := by
  unfold toLowerC
  rw [if_neg (by simp [h])]

theorem isUpperB_toLowerC (c : Char) : isUpperB (toLowerC c) = false := by
  by_cases h : isUpperB c = true
  · have h2 : 65 ≤ c.toNat ∧ c.toNat ≤ 90 := by
      simpa [isUpperB, Bool.and_eq_true, decide_eq_true_eq] using h
    have h3 := toLowerC_toNat_of_upper h
    simp only [isUpperB, h3]
    simp only [Bool.and_eq_false_iff, decide_eq_false_iff_not]
    right
    omega
  · rw [toLowerC_eq_self (by simpa using h)]
    simpa using h

theorem goodChar_cases {c : Char} (h : goodChar c = true) :
    isLowerB c = true ∨ isDigitB c = true ∨ c = ' ' := by
  have h2 : (isLowerB c = true ∨ isDigitB c = true) ∨ c = ' ' := by
    simpa [goodChar, Bool.or_eq_true, beq_iff_eq] using h
  tauto

theorem goodChar_not_upper {c : Char} (h : goodChar c = true) : isUpperB c = false := by
  rcases goodChar_cases h with h1 | h1 | h1
  · have h2 : 97 ≤ c.toNat ∧ c.toNat ≤ 122 := by
      simpa [isLowerB, Bool.and_eq_true, decide_eq_true_eq] using h1
    simp only [isUpperB, Bool.and_eq_false_iff, decide_eq_false_iff_not]
    omega
  · have h2 : 48 ≤ c.toNat ∧ c.toNat ≤ 57 := by
      simpa [isDigitB, Bool.and_eq_true, decide_eq_true_eq] using h1
    simp only [isUpperB, Bool.and_eq_false_iff, decide_eq_false_iff_not]
    omega
  · subst h1; decide

theorem goodChar_space {c : Char} (h : goodChar c = true) (hs : isSpaceB c = true) :
    c = ' ' := by
  have hsn : c.toNat ≤ 32 := by
    have h0 : ((((c.toNat = 32 ∨ c.toNat = 9) ∨ c.toNat = 10) ∨ c.toNat = 13) ∨
        c.toNat = 11) ∨ c.toNat = 12 := by
      simpa [isSpaceB, Bool.or_eq_true, beq_iff_eq] using hs
    omega
  rcases goodChar_cases h with h1 | h1 | h1
  · exfalso
    have h2 : 97 ≤ c.toNat ∧ c.toNat ≤ 122 := by
      simpa [isLowerB, Bool.and_eq_true, decide_eq_true_eq] using h1
    omega
  · exfalso
    have h2 : 48 ≤ c.toNat ∧ c.toNat ≤ 57 := by
      simpa [isDigitB, Bool.and_eq_true, decide_eq_true_eq] using h1
    omega
  · exact h1

theorem goodChar_allowed {c : Char} (h : goodChar c = true) : allowedB c = true := by
  rcases goodChar_cases h with h1 | h1 | h1
  · simp [allowedB, h1]
  · simp [allowedB, h1]
  · subst h1; decide

/-! ## List-level lemmas about the cleaning pipeline -/

theorem subHttpF_sublist : ∀ (fuel : Nat) (l : List Char), List.Sublist (subHttpF fuel l) l := by
  intro fuel
  induction fuel with
  | zero => intro l; exact List.nil_sublist l
  | succ n ih =>
    intro l
    match l with
    | [] => exact List.nil_sublist []
    | c :: cs =>
      rw [subHttpF]
      split
      · exact ((ih _).trans ((List.dropWhile_sublist _).trans (List.drop_sublist 3 cs))).cons c
      · exact (ih cs).cons₂ c

theorem subHttp_sublist (l : List Char) : List.Sublist (subHttp l) l := subHttpF_sublist _ _

theorem mem_squeeze : ∀ (l : List Char) (c : Char), c ∈ squeeze l →
    c = ' ' ∨ (c ∈ l ∧ isSpaceB c = false) := by
  intro l
  induction l with
  | nil => intro c h; simp [squeeze] at h
  | cons a t ih =>
    intro c h
    cases t with
    | nil =>
      simp only [squeeze, List.mem_singleton] at h
      by_cases hs : isSpaceB a = true
      · rw [if_pos hs] at h; left; exact h
      · rw [if_neg hs] at h
        right
        refine ⟨by simp [h], ?_⟩
        rw [h]
        simpa using hs
    | cons b t' =>
      rw [squeeze] at h
      by_cases hab : (isSpaceB a && isSpaceB b) = true
      · rw [if_pos hab] at h
        rcases ih c h with h1 | h1
        · left; exact h1
        · right; exact ⟨List.mem_cons_of_mem _ h1.1, h1.2⟩
      · rw [if_neg hab] at h
        rcases List.mem_cons.mp h with h1 | h1
        · by_cases hs : isSpaceB a = true
          · left; rw [h1, if_pos hs]
          · right
            rw [h1, if_neg hs]
            exact ⟨List.mem_cons_self _ _, by simpa using hs⟩
        · rcases ih c h1 with h2 | h2
          · left; exact h2
          · right; exact ⟨List.mem_cons_of_mem _ h2.1, h2.2⟩

theorem head?_squeeze_of_not_space {b : Char} (t : List Char) (hb : isSpaceB b = false) :
    (squeeze (b :: t)).head? = some b := by
  cases t with
  | nil => simp [squeeze, hb]
  | cons c t' =>
    rw [squeeze, if_neg (by simp [hb])]
    simp [hb]

theorem noTwoSpaces_tail {a : Char} {l : List Char} (h : noTwoSpaces (a :: l) = true) :
    noTwoSpaces l = true := by
  cases l with
  | nil => rfl
  | cons b t =>
    have h' : (!(isSpaceB a && isSpaceB b) && noTwoSpaces (b :: t)) = true := h
    exact (Bool.and_eq_true_iff.mp h').2

theorem noTwoSpaces_cons {x : Char} {l : List Char}
    (h : noTwoSpaces l = true)
    (hh : ∀ y, l.head? = some y → (isSpaceB x && isSpaceB y) = false) :
    noTwoSpaces (x :: l) = true := by
  cases l with
  | nil => rfl
  | cons b t =>
    have hb := hh b rfl
    show (!(isSpaceB x && isSpaceB b) && noTwoSpaces (b :: t)) = true
    rw [hb, h]
    rfl

theorem noTwoSpaces_squeeze : ∀ l : List Char, noTwoSpaces (squeeze l) = true := by
  intro l
  induction l with
  | nil => rfl
  | cons a t ih =>
    cases t with
    | nil =>
      show noTwoSpaces [if isSpaceB a then ' ' else a] = true
      rfl
    | cons b t' =>
      rw [squeeze]
      by_cases hab : (isSpaceB a && isSpaceB b) = true
      · rw [if_pos hab]; exact ih
      · rw [if_neg hab]
        by_cases hsa : isSpaceB a = true
        · have hb : isSpaceB b = false := by simpa [hsa] using hab
          apply noTwoSpaces_cons ih
          intro y hy
          rw [head?_squeeze_of_not_space t' hb] at hy
          cases hy
          simp [hb]
        · apply noTwoSpaces_cons ih
          intro y hy
          have hsa' : isSpaceB a = false := by simpa using hsa
          rw [if_neg hsa]
          simp [hsa']

theorem noTwoSpaces_dropWhile (p : Char → Bool) :
    ∀ l : List Char, noTwoSpaces l = true → noTwoSpaces (l.dropWhile p) = true := by
  intro l
  induction l with
  | nil => intro h; exact h
  | cons a t ih =>
    intro h
    rw [List.dropWhile_cons]
    split
    · exact ih (noTwoSpaces_tail h)
    · exact h

theorem noTwoSpaces_append_left : ∀ {l r : List Char}, noTwoSpaces (l ++ r) = true →
    noTwoSpaces l = true := by
  intro l r
  induction l with
  | nil => intro _; rfl
  | cons a t ih =>
    intro h
    cases t with
    | nil => rfl
    | cons b t' =>
      have h' : (!(isSpaceB a && isSpaceB b) && noTwoSpaces ((b :: t') ++ r)) = true := h
      have h1 := Bool.and_eq_true_iff.mp h'
      show (!(isSpaceB a && isSpaceB b) && noTwoSpaces (b :: t')) = true
      rw [h1.1, ih h1.2]
      rfl

theorem headNotSpace_dropWhile : ∀ l : List Char, headNotSpace (l.dropWhile isSpaceB) = true := by
  intro l
  induction l with
  | nil => rfl
  | cons a t ih =>
    rw [List.dropWhile_cons]
    split
    · exact ih
    · rename_i hne
      show (!isSpaceB a) = true
      simpa using hne

theorem headNotSpace_append_left {l r : List Char} (h : headNotSpace (l ++ r) = true) :
    headNotSpace l = true := by
  cases l with
  | nil => rfl
  | cons a t => exact h

theorem stripEnd_append (l : List Char) : ∃ u, l = stripEnd l ++ u := by
  refine ⟨(l.reverse.takeWhile isSpaceB).reverse, ?_⟩
  calc l = l.reverse.reverse := (List.reverse_reverse l).symm
    _ = (l.reverse.takeWhile isSpaceB ++ l.reverse.dropWhile isSpaceB).reverse := by
        rw [List.takeWhile_append_dropWhile]
    _ = (l.reverse.dropWhile isSpaceB).reverse ++ (l.reverse.takeWhile isSpaceB).reverse := by
        rw [List.reverse_append]
    _ = stripEnd l ++ (l.reverse.takeWhile isSpaceB).reverse := rfl

theorem mem_stripBoth {c : Char} {l : List Char} (h : c ∈ stripBoth l) : c ∈ l := by
  unfold stripBoth stripEnd stripL at h
  rw [List.mem_reverse] at h
  have h2 := (List.dropWhile_sublist _).subset h
  rw [List.mem_reverse] at h2
  exact (List.dropWhile_sublist _).subset h2

/-! ## The normal form of cleaned text -/

theorem all_goodChar_cleanStr (s : List Char) : (cleanStr s).all goodChar = true := by
  rw [List.all_eq_true]
  intro c hc
  have hc1 : c ∈ squeeze (filterAllowed (subHttp (s.map toLowerC))) := mem_stripBoth hc
  rcases mem_squeeze _ c hc1 with h1 | ⟨h2, h3⟩
  · subst h1; decide
  · rw [filterAllowed, List.mem_filter] at h2
    obtain ⟨h4, h5⟩ := h2
    have h6 : c ∈ s.map toLowerC := (subHttp_sublist _).subset h4
    obtain ⟨d, _, hd⟩ := List.mem_map.mp h6
    have h7 : isUpperB c = false := hd ▸ isUpperB_toLowerC d
    simp only [allowedB, h7, h3, Bool.false_or, Bool.or_false, Bool.or_eq_true] at h5
    rcases h5 with h5 | h5 <;> simp [goodChar, h5]

theorem noTwoSpaces_cleanStr (s : List Char) : noTwoSpaces (cleanStr s) = true := by
  show noTwoSpaces (stripEnd (stripL (squeeze (filterAllowed (subHttp (s.map toLowerC)))))) = true
  have hx : noTwoSpaces (stripL (squeeze (filterAllowed (subHttp (s.map toLowerC))))) = true :=
    noTwoSpaces_dropWhile _ _ (noTwoSpaces_squeeze _)
  obtain ⟨u, hu⟩ := stripEnd_append (stripL (squeeze (filterAllowed (subHttp (s.map toLowerC)))))
  rw [hu] at hx
  exact noTwoSpaces_append_left hx

theorem headNotSpace_cleanStr (s : List Char) : headNotSpace (cleanStr s) = true := by
  show headNotSpace (stripEnd (stripL (squeeze (filterAllowed (subHttp (s.map toLowerC)))))) = true
  obtain ⟨u, hu⟩ := stripEnd_append (stripL (squeeze (filterAllowed (subHttp (s.map toLowerC)))))
  apply headNotSpace_append_left (r := u)
  rw [← hu]
  exact headNotSpace_dropWhile _

theorem tailNotSpace_cleanStr (s : List Char) : headNotSpace (cleanStr s).reverse = true := by
  show headNotSpace (stripEnd (stripL (squeeze (filterAllowed (subHttp (s.map toLowerC)))))).reverse = true
  unfold stripEnd
  rw [List.reverse_reverse]
  exact headNotSpace_dropWhile _

theorem cleanStr_cleanedOK (s : List Char) : cleanedOK (cleanStr s) = true := by
  unfold cleanedOK
  rw [all_goodChar_cleanStr, noTwoSpaces_cleanStr, headNotSpace_cleanStr, tailNotSpace_cleanStr]
  rfl

/-! ## Identity of the cleaning steps on already-clean text -/

theorem map_toLowerC_of_good : ∀ l : List Char, (∀ c ∈ l, goodChar c = true) →
    l.map toLowerC = l := by
  intro l
  induction l with
  | nil => intro _; rfl
  | cons a t ih =>
    intro h
    rw [List.map_cons, toLowerC_eq_self (goodChar_not_upper (h a (List.mem_cons_self a t))),
      ih (fun c hc => h c (List.mem_cons_of_mem _ hc))]

theorem filterAllowed_of_good (l : List Char) (h : ∀ c ∈ l, goodChar c = true) :
    filterAllowed l = l :=
  List.filter_eq_self.mpr (fun c hc => goodChar_allowed (h c hc))

theorem squeeze_eq_self : ∀ l : List Char, noTwoSpaces l = true →
    (∀ c ∈ l, isSpaceB c = true → c = ' ') → squeeze l = l := by
  intro l
  induction l with
  | nil => intro _ _; rfl
  | cons a t ih =>
    intro h1 h2
    cases t with
    | nil =>
      show [if isSpaceB a then ' ' else a] = [a]
      by_cases hs : isSpaceB a = true
      · rw [if_pos hs, h2 a (List.mem_cons_self _ _) hs]
      · rw [if_neg (by simp [hs])]
    | cons b t' =>
      rw [squeeze]
      have h1' : (!(isSpaceB a && isSpaceB b) && noTwoSpaces (b :: t')) = true := h1
      have hab : (isSpaceB a && isSpaceB b) = false := by
        have hn := (Bool.and_eq_true_iff.mp h1').1
        cases hx : (isSpaceB a && isSpaceB b)
        · rfl
        · rw [hx] at hn; exact absurd hn (by decide)
      rw [if_neg (by simp [hab])]
      congr 1
      · by_cases hs : isSpaceB a = true
        · rw [if_pos hs]; exact (h2 a (List.mem_cons_self _ _) hs).symm
        · rw [if_neg hs]
      · exact ih (noTwoSpaces_tail h1) (fun c hc hcs => h2 c (List.mem_cons_of_mem _ hc) hcs)

theorem stripL_eq_self {l : List Char} (h : headNotSpace l = true) : stripL l = l := by
  cases l with
  | nil => rfl
  | cons a t =>
    have ha : isSpaceB a = false := by simpa [headNotSpace] using h
    unfold stripL
    rw [List.dropWhile_cons, if_neg (by simp [ha])]

theorem stripEnd_eq_self {l : List Char} (h : headNotSpace l.reverse = true) :
    stripEnd l = l := by
  have h2 : stripL l.reverse = l.reverse := stripL_eq_self h
  unfold stripL at h2
  unfold stripEnd
  rw [h2, List.reverse_reverse]

theorem stripBoth_eq_self {l : List Char} (h1 : headNotSpace l = true)
    (h2 : headNotSpace l.reverse = true) : stripBoth l = l := by
  unfold stripBoth
  rw [stripL_eq_self h1, stripEnd_eq_self h2]

/-! ## Claim C10: totality and output alphabet of clean_text -/

/-- C10: `clean_text` is total over all modelled Python input values (it
stringifies its argument first, so numbers and missing values are
accepted), and its result consists only of lower-case ASCII letters,
digits and single spaces, with no adjacent spaces and no leading or
trailing whitespace. -/
theorem clean_text_output_clean (v : PyVal) : cleanedOK (clean_text v) = true :=
  cleanStr_cleanedOK (pyStrOf v)

/-! ## Claim C4: clean_text is NOT idempotent -/

/-- C4 counterexample: for the input `"ht~tpx"` one application of
`clean_text` yields `"httpx"` (the tilde is removed by the
special-character filter, creating a fresh `http` token), and a second
application deletes it entirely via URL removal, so
`clean_text (clean_text s)` differs from `clean_text s`. -/
theorem clean_text_not_idempotent :
    clean_text (.pyStr (clean_text (.pyStr (("ht~tpx").data)))) ≠
      clean_text (.pyStr (("ht~tpx").data)) := by decide

/-- C4 (amended): `clean_text` is idempotent on every input whose cleaned
result is left unchanged by the URL-removal step, i.e. whose cleaned
result contains no occurrence of `http` followed by a non-whitespace
character.  (In general a second application can remove more text,
because deleting special characters may create a new `http...` token, as
witnessed by the counterexample `"ht~tpx"`.) -/
theorem clean_text_idempotent_of_no_url (s : List Char)
    (h : subHttp (clean_text (.pyStr s)) = clean_text (.pyStr s)) :
    clean_text (.pyStr (clean_text (.pyStr s))) = clean_text (.pyStr s) := by
  have hOK : cleanedOK (cleanStr s) = true := cleanStr_cleanedOK s
  simp only [cleanedOK, Bool.and_eq_true, List.all_eq_true] at hOK
  obtain ⟨⟨⟨hall, hnts⟩, hhead⟩, htail⟩ := hOK
  have h' : subHttp (cleanStr s) = cleanStr s := h
  show stripBoth (squeeze (filterAllowed (subHttp ((cleanStr s).map toLowerC)))) = cleanStr s
  rw [map_toLowerC_of_good _ hall, h', filterAllowed_of_good _ hall,
    squeeze_eq_self _ hnts (fun c hc hcs => goodChar_space (hall c hc) hcs),
    stripBoth_eq_self hhead htail]

/-- Witness for the amended C4 at a concrete input. -/
theorem clean_text_idempotent_of_no_url_witness :
    subHttp (clean_text (.pyStr (("Check THIS,  text!!").data))) =
      clean_text (.pyStr (("Check THIS,  text!!").data)) ∧
    clean_text (.pyStr (clean_text (.pyStr (("Check THIS,  text!!").data)))) =
      clean_text (.pyStr (("Check THIS,  text!!").data)) :=
  ⟨by decide, clean_text_idempotent_of_no_url _ (by decide)⟩

/-! ## Claim C5: the loader removes exactly the overlapping test rows -/

/-- C5: a test row survives the loader's overlap-removal step if and only
if its stripped comment text equals no example row's stripped comment
text, and every row of the loaded test set (also after the optional row
cap) matches no example comment, so the example set and loaded test set
are disjoint by comment text. -/
theorem loader_overlap_filter (examples test : List RawRow) (t : RawRow)
    (test_limit : Option Nat) :
    (t ∈ overlapFiltered examples test ↔
      (t ∈ test ∧
        examples.all (fun e => !(stripBoth e.comment == stripBoth t.comment)) = true)) ∧
    (t ∈ load_datasets_test examples test test_limit →
      examples.all (fun e => !(stripBoth e.comment == stripBoth t.comment)) = true) := by
  have key : t ∈ overlapFiltered examples test ↔
      (t ∈ test ∧
        examples.all (fun e => !(stripBoth e.comment == stripBoth t.comment)) = true) := by
    rw [overlapFiltered, List.mem_filter]
    constructor
    · rintro ⟨hmem, hp⟩
      have hp' : (!((examples.map fun e => stripBoth e.comment).contains
          (stripBoth t.comment))) = true := hp
      refine ⟨hmem, ?_⟩
      rw [List.all_eq_true]
      intro e he
      show (!(stripBoth e.comment == stripBoth t.comment)) = true
      cases hb : (stripBoth e.comment == stripBoth t.comment)
      · rfl
      · exfalso
        have htrue : ((examples.map fun e => stripBoth e.comment).contains
            (stripBoth t.comment)) = true := by
          rw [List.contains_eq_any_beq, List.any_eq_true]
          refine ⟨stripBoth e.comment, List.mem_map_of_mem _ he, ?_⟩
          simp [eq_of_beq hb]
        rw [htrue] at hp'
        exact absurd hp' (by decide)
    · rintro ⟨hmem, hall⟩
      refine ⟨hmem, ?_⟩
      show (!((examples.map fun e => stripBoth e.comment).contains
          (stripBoth t.comment))) = true
      cases hx : ((examples.map fun e => stripBoth e.comment).contains (stripBoth t.comment))
      · rfl
      · exfalso
        rw [List.contains_eq_any_beq, List.any_eq_true] at hx
        obtain ⟨x, hxmem, hbeq⟩ := hx
        obtain ⟨e, he, hfe⟩ := List.mem_map.mp hxmem
        rw [List.all_eq_true] at hall
        have hne : ¬(stripBoth e.comment = stripBoth t.comment) := by
          simpa using hall e he
        exact hne (hfe.trans (eq_of_beq hbeq).symm)
  refine ⟨key, fun hmem => ?_⟩
  have ht : t ∈ overlapFiltered examples test := by
    rcases test_limit with _ | n
    · simpa [load_datasets_test, applyTestLimit] using hmem
    · simp only [load_datasets_test, applyTestLimit] at hmem
      by_cases hn : 0 < n
      · rw [if_pos hn] at hmem
        exact (List.take_sublist _ _).subset hmem
      · rw [if_neg hn] at hmem
        exact hmem
  exact (key.mp ht).2

/-- Witness for C5 at concrete rows: the overlapping row is removed, the
fresh row is kept. -/
theorem loader_overlap_filter_witness :
    ((⟨(" common ").data, 1⟩ : RawRow) ∈
        overlapFiltered [⟨("common").data, 0⟩] [⟨(" common ").data, 1⟩, ⟨("fresh").data, 2⟩] ↔
      ((⟨(" common ").data, 1⟩ : RawRow) ∈
          ([⟨(" common ").data, 1⟩, ⟨("fresh").data, 2⟩] : List RawRow) ∧
        ([⟨("common").data, 0⟩] : List RawRow).all
          (fun e => !(stripBoth e.comment == stripBoth ((" common ").data))) = true)) ∧
    ((⟨(" common ").data, 1⟩ : RawRow) ∈
        load_datasets_test [⟨("common").data, 0⟩]
          [⟨(" common ").data, 1⟩, ⟨("fresh").data, 2⟩] none →
      ([⟨("common").data, 0⟩] : List RawRow).all
        (fun e => !(stripBoth e.comment == stripBoth ((" common ").data))) = true) :=
  loader_overlap_filter [⟨("common").data, 0⟩]
    [⟨(" common ").data, 1⟩, ⟨("fresh").data, 2⟩] ⟨(" common ").data, 1⟩ none

/-! ## Claim C6: every ground-truth label site binarises Level-1 at >= 1 -/

/-- C6: at all three sites that derive a binary label from `Level-1` (the
example lines of the few-shot prompt, the `True_Label` column of a
checkpoint row, and the labels used by `save_results`), the label is
`1` exactly when `Level-1 >= 1` and `0` exactly when it is `0`. -/
theorem level1_binarized_everywhere (x : Nat) (r : DataRow) (rest : List DataRow)
    (p : Nat) (ps : List Nat) (o : List Char) (os : List (List Char)) (test : List DataRow) :
    exampleLine r = ("Comment: \"").data ++ r.cleaned ++ ("\"\nClassification: ").data ++
        digitOf (binSpec r.level1) ++ ("\n\n").data ∧
    (ckRows (r :: rest) (p :: ps) (o :: os)).head? =
        some ⟨r.comment, r.cleaned, binSpec r.level1, p, o.take 500⟩ ∧
    save_results_true_labels test = test.map (fun q => binSpec q.level1) ∧
    ((binSpec x = 1 ↔ 1 ≤ x) ∧ (binSpec x = 0 ↔ x = 0)) := by
  refine ⟨rfl, rfl, rfl, ?_, ?_⟩ <;> unfold binSpec <;>
    by_cases h : 1 ≤ x <;> simp [h] <;> omega

/-! ## Claim C7: two seeds permute the same example lines around the same frame -/

/-- C7: for any seeded permutation `shuffle` (which is what
`DataFrame.sample(frac=1, random_state=seed)` produces), the prompts
built from two seeds consist of the identical instruction header, a
permutation of the identical multiset of example lines (each a
Comment/Classification pair, all examples and nothing else), and the
identical trailing target-comment block. -/
theorem prompt_shuffle_same_lines (shuffle : Nat → List DataRow → List DataRow)
    (hs : ∀ s l, (shuffle s l).Perm l)
    (examples_df : List DataRow) (comment : List Char) (seed1 seed2 : Nat) :
    create_few_shot_prompt shuffle examples_df comment seed1 =
      promptInstructions ++ ("Examples:\n").data ++
        ((shuffle seed1 examples_df).map exampleLine).flatten ++ promptTarget comment ∧
    create_few_shot_prompt shuffle examples_df comment seed2 =
      promptInstructions ++ ("Examples:\n").data ++
        ((shuffle seed2 examples_df).map exampleLine).flatten ++ promptTarget comment ∧
    ((shuffle seed1 examples_df).map exampleLine).Perm
      ((shuffle seed2 examples_df).map exampleLine) ∧
    ((shuffle seed1 examples_df).map exampleLine).Perm (examples_df.map exampleLine) := by
  refine ⟨rfl, rfl, ?_, ?_⟩
  · exact ((hs seed1 examples_df).trans (hs seed2 examples_df).symm).map _
  · exact (hs seed1 examples_df).map _

/-- Witness for C7 with a shuffle that really reorders on odd seeds. -/
theorem prompt_shuffle_same_lines_witness :
    create_few_shot_prompt shuffleRev examples0 (("hi").data) 0 =
      promptInstructions ++ ("Examples:\n").data ++
        ((shuffleRev 0 examples0).map exampleLine).flatten ++ promptTarget (("hi").data) ∧
    create_few_shot_prompt shuffleRev examples0 (("hi").data) 1 =
      promptInstructions ++ ("Examples:\n").data ++
        ((shuffleRev 1 examples0).map exampleLine).flatten ++ promptTarget (("hi").data) ∧
    ((shuffleRev 0 examples0).map exampleLine).Perm
      ((shuffleRev 1 examples0).map exampleLine) ∧
    ((shuffleRev 0 examples0).map exampleLine).Perm (examples0.map exampleLine) :=
  prompt_shuffle_same_lines shuffleRev
    (fun s l => by
      simp only [shuffleRev]
      split
      · exact List.Perm.refl _
      · exact List.reverse_perm _)
    examples0 (("hi").data) 0 1

/-! ## Claim C8: all-or-nothing prompt fallback -/

/-- C8: when the tokenizer reports `n` tokens for the full few-shot
prompt, the batch driver hands the model the simplified no-examples
template exactly when `n` exceeds `max_length` and the unchanged full
prompt otherwise; the prompt used is always one of these two, so no
intermediate compression exists. -/
theorem prompt_fallback_all_or_nothing (shuffle : Nat → List DataRow → List DataRow)
    (tokCount : List Char → Except (List Char) Nat)
    (decode : List Char → Except (List Char) (List Char))
    (examples_df : List DataRow) (max_length random_seed n : Nat) (comment : List Char)
    (h : tokCount (create_few_shot_prompt shuffle examples_df comment random_seed) =
      Except.ok n) :
    processOne shuffle tokCount decode examples_df max_length random_seed comment =
      predict_with_model decode
        (if max_length < n then simplified_prompt comment
         else create_few_shot_prompt shuffle examples_df comment random_seed) ∧
    ((if max_length < n then simplified_prompt comment
      else create_few_shot_prompt shuffle examples_df comment random_seed) =
        simplified_prompt comment ∨
     (if max_length < n then simplified_prompt comment
      else create_few_shot_prompt shuffle examples_df comment random_seed) =
        create_few_shot_prompt shuffle examples_df comment random_seed) ∧
    (max_length < n →
      (if max_length < n then simplified_prompt comment
       else create_few_shot_prompt shuffle examples_df comment random_seed) =
        simplified_prompt comment) ∧
    (n ≤ max_length →
      (if max_length < n then simplified_prompt comment
       else create_few_shot_prompt shuffle examples_df comment random_seed) =
        create_few_shot_prompt shuffle examples_df comment random_seed) := by
  refine ⟨?_, ?_, ?_, ?_⟩
  · unfold processOne
    rw [h]
  · by_cases hlt : max_length < n
    · left; rw [if_pos hlt]
    · right; rw [if_neg hlt]
  · intro hlt; rw [if_pos hlt]
  · intro hle; rw [if_neg (by omega)]

/-- Witness for C8: with a stub tokenizer reporting 9999 tokens against
the default budget 4096, the simplified template is used. -/
theorem prompt_fallback_all_or_nothing_witness :
    processOne shuffle0 tokBig decode1 examples0 4096 42 (("hi").data) =
      predict_with_model decode1
        (if 4096 < 9999 then simplified_prompt (("hi").data)
         else create_few_shot_prompt shuffle0 examples0 (("hi").data) 42) ∧
    ((if 4096 < 9999 then simplified_prompt (("hi").data)
      else create_few_shot_prompt shuffle0 examples0 (("hi").data) 42) =
        simplified_prompt (("hi").data) ∨
     (if 4096 < 9999 then simplified_prompt (("hi").data)
      else create_few_shot_prompt shuffle0 examples0 (("hi").data) 42) =
        create_few_shot_prompt shuffle0 examples0 (("hi").data) 42) ∧
    (4096 < 9999 →
      (if 4096 < 9999 then simplified_prompt (("hi").data)
       else create_few_shot_prompt shuffle0 examples0 (("hi").data) 42) =
        simplified_prompt (("hi").data)) ∧
    (9999 ≤ 4096 →
      (if 4096 < 9999 then simplified_prompt (("hi").data)
       else create_few_shot_prompt shuffle0 examples0 (("hi").data) 42) =
        create_few_shot_prompt shuffle0 examples0 (("hi").data) 42) :=
  prompt_fallback_all_or_nothing shuffle0 tokBig decode1 examples0 4096 42 9999
    (("hi").data) rfl

/-! ## Lemmas about the batch driver -/

theorem mk_ckpts (a : List Nat) (b : List (List Char)) (c : List (Nat × List CkRow)) :
    (BatchState.mk a b c).ckpts = c := rfl

theorem parse_response_mem01 (g f : List Char) :
    parse_response g f = 0 ∨ parse_response g f = 1 := by
  simp only [parse_response]
  split
  · exact Or.inr rfl
  split
  · exact Or.inl rfl
  split
  · exact Or.inr rfl
  split
  · exact Or.inl rfl
  split
  · exact Or.inr rfl
  split
  · exact Or.inl rfl
  exact Or.inl rfl

theorem processOne_label (shuffle : Nat → List DataRow → List DataRow)
    (tokCount : List Char → Except (List Char) Nat)
    (decode : List Char → Except (List Char) (List Char))
    (examples_df : List DataRow) (max_length random_seed : Nat) (comment : List Char) :
    (processOne shuffle tokCount decode examples_df max_length random_seed comment).1 = 0 ∨
    (processOne shuffle tokCount decode examples_df max_length random_seed comment).1 = 1 := by
  unfold processOne
  cases htc : tokCount (create_few_shot_prompt shuffle examples_df comment random_seed) with
  | error e => exact Or.inl rfl
  | ok n =>
    dsimp only
    unfold predict_with_model
    cases hdc : decode (if max_length < n then simplified_prompt comment
        else create_few_shot_prompt shuffle examples_df comment random_seed) with
    | error e => exact Or.inl rfl
    | ok out =>
      dsimp only
      exact parse_response_mem01 _ _

theorem processOne_of_error (shuffle : Nat → List DataRow → List DataRow)
    (tokCount : List Char → Except (List Char) Nat)
    (decode : List Char → Except (List Char) (List Char))
    (examples_df : List DataRow) (max_length random_seed : Nat) (comment e : List Char)
    (h : recError? shuffle tokCount decode examples_df max_length random_seed comment =
      some e) :
    processOne shuffle tokCount decode examples_df max_length random_seed comment =
      (0, ("ERROR: ").data ++ e) := by
  unfold recError? at h
  unfold processOne
  cases htc : tokCount (create_few_shot_prompt shuffle examples_df comment random_seed) with
  | error eh =>
    rw [htc] at h
    dsimp only at h
    simp only [Option.some.injEq] at h
    rw [h]
  | ok n =>
    rw [htc] at h
    dsimp only at h ⊢
    cases hdc : decode (if max_length < n then simplified_prompt comment
        else create_few_shot_prompt shuffle examples_df comment random_seed) with
    | error eh =>
      rw [hdc] at h
      dsimp only at h
      simp only [Option.some.injEq] at h
      unfold predict_with_model
      rw [hdc]
      dsimp only
      rw [h]
    | ok out =>
      rw [hdc] at h
      dsimp only at h
      simp at h

theorem ckRows_expRow (shuffle : Nat → List DataRow → List DataRow)
    (tokCount : List Char → Except (List Char) Nat)
    (decode : List Char → Except (List Char) (List Char))
    (examples_df : List DataRow) (max_length random_seed : Nat) :
    ∀ l : List DataRow,
      ckRows l (l.map (fpred shuffle tokCount decode examples_df max_length random_seed))
        (l.map (fraw shuffle tokCount decode examples_df max_length random_seed)) =
      l.map (expRow shuffle tokCount decode examples_df max_length random_seed) := by
  intro l
  induction l with
  | nil => rfl
  | cons a t ih => simp [ckRows, expRow, binSpec, fpred, fraw, ih]

theorem batchGo_spec (shuffle : Nat → List DataRow → List DataRow)
    (tokCount : List Char → Except (List Char) Nat)
    (decode : List Char → Except (List Char) (List Char))
    (examples_df : List DataRow) (max_length random_seed : Nat)
    (test_df : List DataRow) (k : Nat) :
    ∀ (rest : List DataRow) (i : Nat) (st : BatchState),
      test_df.drop i = rest →
      st.preds = (test_df.take i).map
        (fpred shuffle tokCount decode examples_df max_length random_seed) →
      st.raws = (test_df.take i).map
        (fraw shuffle tokCount decode examples_df max_length random_seed) →
      batchGo shuffle tokCount decode examples_df max_length random_seed test_df k i rest st =
        ⟨test_df.map (fpred shuffle tokCount decode examples_df max_length random_seed),
         test_df.map (fraw shuffle tokCount decode examples_df max_length random_seed),
         st.ckpts ++
           ((List.range' (i + 1) (test_df.length - i)).filter
               (fun m => m % k == 0 || m == test_df.length)).map
             (fun m => (m, (test_df.take m).map
               (expRow shuffle tokCount decode examples_df max_length random_seed)))⟩ := by
  intro rest
  induction rest with
  | nil =>
    intro i st hdrop hpreds hraws
    have hlen : test_df.length ≤ i := List.drop_eq_nil_iff.mp hdrop
    have h0 : test_df.length - i = 0 := by omega
    have htake : test_df.take i = test_df := List.take_of_length_le hlen
    rw [htake] at hpreds hraws
    simp only [batchGo, h0]
    cases st with
    | mk p r c => simp_all [List.range']
  | cons r0 rest ih =>
    intro i st hdrop hpreds hraws
    have hlen : i < test_df.length := by
      by_contra hc
      have hnil : test_df.drop i = [] := List.drop_eq_nil_of_le (by omega)
      rw [hnil] at hdrop
      exact List.noConfusion hdrop
    have hdrop' : test_df.drop (i + 1) = rest := by
      rw [← List.drop_drop 1 i test_df, hdrop]
      rfl
    have hget : test_df.take (i + 1) = test_df.take i ++ [r0] := by
      rw [List.take_succ]
      have h2 := List.drop_eq_getElem_cons hlen
      rw [hdrop, hdrop'] at h2
      injection h2 with h3 _
      rw [List.getElem?_eq_getElem hlen, ← h3]
      rfl
    have hpreds' : st.preds ++
        [(processOne shuffle tokCount decode examples_df max_length random_seed r0.cleaned).1] =
        (test_df.take (i + 1)).map
          (fpred shuffle tokCount decode examples_df max_length random_seed) := by
      rw [hget, List.map_append, hpreds]
      rfl
    have hraws' : st.raws ++
        [(processOne shuffle tokCount decode examples_df max_length random_seed r0.cleaned).2] =
        (test_df.take (i + 1)).map
          (fraw shuffle tokCount decode examples_df max_length random_seed) := by
      rw [hget, List.map_append, hraws]
      rfl
    have hlenp : (st.preds ++
        [(processOne shuffle tokCount decode examples_df max_length random_seed r0.cleaned).1]).length
        = i + 1 := by
      rw [List.length_append, hpreds, List.length_map, List.length_take]
      simp
      omega
    have hlenr : (st.raws ++
        [(processOne shuffle tokCount decode examples_df max_length random_seed r0.cleaned).2]).length
        = i + 1 := by
      rw [List.length_append, hraws, List.length_map, List.length_take]
      simp
      omega
    have htkp : (st.preds ++
        [(processOne shuffle tokCount decode examples_df max_length random_seed r0.cleaned).1]).take (i + 1)
        = (test_df.take (i + 1)).map
          (fpred shuffle tokCount decode examples_df max_length random_seed) := by
      rw [List.take_of_length_le (Nat.le_of_eq hlenp)]
      exact hpreds'
    have htkr : (st.raws ++
        [(processOne shuffle tokCount decode examples_df max_length random_seed r0.cleaned).2]).take (i + 1)
        = (test_df.take (i + 1)).map
          (fraw shuffle tokCount decode examples_df max_length random_seed) := by
      rw [List.take_of_length_le (Nat.le_of_eq hlenr)]
      exact hraws'
    have hio : (i == test_df.length - 1) = ((i + 1) == test_df.length) := by
      by_cases he : i = test_df.length - 1
      · have h2 : i + 1 = test_df.length := by omega
        rw [show (i == test_df.length - 1) = true from by simp [he],
          show ((i + 1) == test_df.length) = true from by simp [h2]]
      · have h2 : ¬(i + 1 = test_df.length) := by omega
        rw [show (i == test_df.length - 1) = false from by simp [he],
          show ((i + 1) == test_df.length) = false from by simp [h2]]
    have hrange : List.range' (i + 1) (test_df.length - i) =
        (i + 1) :: List.range' (i + 2) (test_df.length - (i + 1)) := by
      have h1 : test_df.length - i = (test_df.length - (i + 1)) + 1 := by omega
      rw [h1, List.range'_succ]
    simp only [batchGo]
    rw [htkp, htkr, ckRows_expRow]
    cases hc : ((i + 1) % k == 0 || i == test_df.length - 1) with
    | false =>
      rw [if_neg (by simp : ¬((false : Bool) = true))]
      rw [ih (i + 1) _ hdrop' hpreds' hraws']
      rw [mk_ckpts]
      have hcond : ((i + 1) % k == 0 || (i + 1) == test_df.length) = false := by
        rw [← hio]; exact hc
      rw [hrange, List.filter_cons, if_neg (by simp [hcond])]
    | true =>
      rw [if_pos (rfl : (true : Bool) = true)]
      rw [ih (i + 1) _ hdrop' hpreds' hraws']
      rw [mk_ckpts]
      have hcond : ((i + 1) % k == 0 || (i + 1) == test_df.length) = true := by
        rw [← hio]; exact hc
      rw [hrange, List.filter_cons, if_pos hcond, List.map_cons, List.append_assoc]
      rfl

theorem batch_predict_spec (shuffle : Nat → List DataRow → List DataRow)
    (tokCount : List Char → Except (List Char) Nat)
    (decode : List Char → Except (List Char) (List Char))
    (examples_df : List DataRow) (max_length random_seed : Nat)
    (test_df : List DataRow) (k : Nat) :
    batch_predict shuffle tokCount decode examples_df max_length random_seed test_df k =
      ⟨test_df.map (fpred shuffle tokCount decode examples_df max_length random_seed),
       test_df.map (fraw shuffle tokCount decode examples_df max_length random_seed),
       expCkpts shuffle tokCount decode examples_df max_length random_seed test_df k⟩ := by
  unfold batch_predict expCkpts expCounts
  rw [batchGo_spec shuffle tokCount decode examples_df max_length random_seed test_df k
    test_df 0 ⟨[], [], []⟩ rfl rfl rfl]
  rfl

/-! ## Claim C3: checkpoint schedule and contents -/

/-- C3: with a positive checkpoint interval `k`, `batch_predict` writes
checkpoints exactly after the record counts in `{m in 1..N : k ∣ m} ∪ {N}`
(in increasing order, `N` included even when it is not a multiple of `k`,
and not duplicated when it is), and the checkpoint written after count
`m` contains exactly `m` rows, the `j`-th holding the `j`-th test row's
comment, cleaned comment, `>= 1`-binarised true label, its prediction and
its raw output truncated to 500 characters. -/
theorem batch_checkpoint_schedule (shuffle : Nat → List DataRow → List DataRow)
    (tokCount : List Char → Except (List Char) Nat)
    (decode : List Char → Except (List Char) (List Char))
    (examples_df : List DataRow) (max_length random_seed : Nat)
    (test_df : List DataRow) (k : Nat) (hk : 0 < k) :
    (batch_predict shuffle tokCount decode examples_df max_length random_seed test_df k).ckpts
      = expCkpts shuffle tokCount decode examples_df max_length random_seed test_df k ∧
    (batch_predict shuffle tokCount decode examples_df max_length random_seed
        test_df k).ckpts.all (fun c => c.2.length == c.1) = true := by
  have h := batch_predict_spec shuffle tokCount decode examples_df max_length random_seed
    test_df k
  rw [h]
  refine ⟨rfl, ?_⟩
  rw [List.all_eq_true]
  rintro ⟨m, rows⟩ hmem
  unfold expCkpts at hmem
  obtain ⟨m', hm', heq⟩ := List.mem_map.mp hmem
  cases heq
  unfold expCounts at hm'
  have hmr := (List.mem_filter.mp hm').1
  rw [List.mem_range'] at hmr
  obtain ⟨j, hj, hjm⟩ := hmr
  simp only [List.length_map, List.length_take, beq_iff_eq]
  omega

/-- Witness for C3: three records with interval 2 give checkpoints after
records 2 and 3. -/
theorem batch_checkpoint_schedule_witness :
    (batch_predict shuffle0 tokSmall decode1 examples0 4096 42 recs0 2).ckpts
      = expCkpts shuffle0 tokSmall decode1 examples0 4096 42 recs0 2 ∧
    (batch_predict shuffle0 tokSmall decode1 examples0 4096 42 recs0 2).ckpts.all
      (fun c => c.2.length == c.1) = true :=
  batch_checkpoint_schedule shuffle0 tokSmall decode1 examples0 4096 42 recs0 2 (by decide)

/-! ## Claim C2: per-record failures default to 0 and never abort -/

/-- C2: if processing test record `i` raises (either the tokenizer length
check or the generation call fails with message `e`), `batch_predict`
records prediction 0 and raw output `"ERROR: " ++ e` for that record,
and still produces results for every record of the test set (the result
lists have full length `N`). -/
theorem batch_error_default (shuffle : Nat → List DataRow → List DataRow)
    (tokCount : List Char → Except (List Char) Nat)
    (decode : List Char → Except (List Char) (List Char))
    (examples_df : List DataRow) (max_length random_seed : Nat)
    (test_df : List DataRow) (k i : Nat) (r : DataRow) (e : List Char) (hk : 0 < k)
    (hi : test_df.get? i = some r)
    (he : recError? shuffle tokCount decode examples_df max_length random_seed r.cleaned =
      some e) :
    (batch_predict shuffle tokCount decode examples_df max_length random_seed
        test_df k).preds.get? i = some 0 ∧
    (batch_predict shuffle tokCount decode examples_df max_length random_seed
        test_df k).raws.get? i = some (("ERROR: ").data ++ e) ∧
    (batch_predict shuffle tokCount decode examples_df max_length random_seed
        test_df k).preds.length = test_df.length ∧
    (batch_predict shuffle tokCount decode examples_df max_length random_seed
        test_df k).raws.length = test_df.length := by
  rw [batch_predict_spec shuffle tokCount decode examples_df max_length random_seed test_df k]
  have hpo := processOne_of_error shuffle tokCount decode examples_df max_length random_seed
    r.cleaned e he
  refine ⟨?_, ?_, by simp, by simp⟩
  · rw [List.get?_map, hi]
    simp [fpred, hpo]
  · rw [List.get?_map, hi]
    simp [fraw, hpo]

/-- Witness for C2: a decoding stub that always raises makes record 0
score 0 with the error text, while both result lists keep full length. -/
theorem batch_error_default_witness :
    (batch_predict shuffle0 tokSmall decodeFail examples0 4096 42
        recs0 10).preds.get? 0 = some 0 ∧
    (batch_predict shuffle0 tokSmall decodeFail examples0 4096 42
        recs0 10).raws.get? 0 = some (("ERROR: ").data ++ ("gpu oom").data) ∧
    (batch_predict shuffle0 tokSmall decodeFail examples0 4096 42
        recs0 10).preds.length = recs0.length ∧
    (batch_predict shuffle0 tokSmall decodeFail examples0 4096 42
        recs0 10).raws.length = recs0.length :=
  batch_error_default shuffle0 tokSmall decodeFail examples0 4096 42 recs0 10 0
    ⟨("A").data, ("a").data, 1⟩ (("gpu oom").data) (by decide) rfl rfl

/-! ## Claim C9 (implicit): shape of the batch results -/

/-- C9: after `batch_predict` over `N` test records, the predictions and
raw outputs lists both have exactly `N` entries, the entry at index `i`
is the per-record result of record `i` (one entry per record on both the
success and the exception path), and every recorded prediction is 0
or 1. -/
theorem batch_output_invariants (shuffle : Nat → List DataRow → List DataRow)
    (tokCount : List Char → Except (List Char) Nat)
    (decode : List Char → Except (List Char) (List Char))
    (examples_df : List DataRow) (max_length random_seed : Nat)
    (test_df : List DataRow) (k i : Nat) (hk : 0 < k) :
    (batch_predict shuffle tokCount decode examples_df max_length random_seed
        test_df k).preds.length = test_df.length ∧
    (batch_predict shuffle tokCount decode examples_df max_length random_seed
        test_df k).raws.length = test_df.length ∧
    (batch_predict shuffle tokCount decode examples_df max_length random_seed
        test_df k).preds.get? i = (test_df.get? i).map
      (fun r => (processOne shuffle tokCount decode examples_df max_length random_seed
        r.cleaned).1) ∧
    (batch_predict shuffle tokCount decode examples_df max_length random_seed
        test_df k).raws.get? i = (test_df.get? i).map
      (fun r => (processOne shuffle tokCount decode examples_df max_length random_seed
        r.cleaned).2) ∧
    (batch_predict shuffle tokCount decode examples_df max_length random_seed
        test_df k).preds.all (fun p => p == 0 || p == 1) = true := by
  rw [batch_predict_spec shuffle tokCount decode examples_df max_length random_seed test_df k]
  refine ⟨by simp, by simp, List.get?_map _ _ _, List.get?_map _ _ _, ?_⟩
  rw [List.all_eq_true]
  intro p hp
  obtain ⟨r, hr, hpr⟩ := List.mem_map.mp hp
  rcases processOne_label shuffle tokCount decode examples_df max_length random_seed r.cleaned
    with h0 | h1
  · rw [← hpr]; simp [fpred, h0]
  · rw [← hpr]; simp [fpred, h1]

/-- Witness for C9 at a concrete run. -/
theorem batch_output_invariants_witness :
    (batch_predict shuffle0 tokSmall decode1 examples0 4096 42
        recs0 10).preds.length = recs0.length ∧
    (batch_predict shuffle0 tokSmall decode1 examples0 4096 42
        recs0 10).raws.length = recs0.length ∧
    (batch_predict shuffle0 tokSmall decode1 examples0 4096 42
        recs0 10).preds.get? 1 = (recs0.get? 1).map
      (fun r => (processOne shuffle0 tokSmall decode1 examples0 4096 42 r.cleaned).1) ∧
    (batch_predict shuffle0 tokSmall decode1 examples0 4096 42
        recs0 10).raws.get? 1 = (recs0.get? 1).map
      (fun r => (processOne shuffle0 tokSmall decode1 examples0 4096 42 r.cleaned).2) ∧
    (batch_predict shuffle0 tokSmall decode1 examples0 4096 42
        recs0 10).preds.all (fun p => p == 0 || p == 1) = true :=
  batch_output_invariants shuffle0 tokSmall decode1 examples0 4096 42 recs0 10 1 (by decide)

/-! ## Sanity evaluations of the cleaning pipeline -/

example : clean_text (.pyStr (("  Hello,   WORLD! ").data)) = ("hello world").data := by decide
example : clean_text (.pyStr (("go http://x.y now").data)) = ("go now").data := by decide
example : clean_text (.pyStr (("ht~tpx").data)) = ("httpx").data := by decide
example : clean_text (.pyStr (("httpx").data)) = [] := by decide
example : clean_text (.pyInt 42) = ("42").data := by decide
example : clean_text .pyNaN = ("nan").data := by decide
